import Mathlib

/-!
# VibeSafe core: shallow embedding and verification

This file embeds the core of the VibeSafe secrets manager
(`src/vibesafe/encryption.py`, `src/vibesafe/storage.py`,
`src/vibesafe/vibesafe.py`, `src/vibesafe/services/storage_service.py`,
`src/vibesafe/services/secret_service.py`) and proves the specified
properties about it.

Modelling conventions:

* The cryptographic primitives (RSA-OAEP, AES-GCM, base64) are vetted
  external library calls, not code of this repository; the specification
  explicitly treats them as assumed-correct collaborators.  They are
  modelled symbolically: a key pair is a shared identifier (the private
  and public halves of one generated pair carry the same `Nat` id, and
  OAEP unwrap succeeds exactly when the ids match); an AES-GCM box records
  the key, nonce and plaintext it was built from, and AEAD decryption
  authenticates the key and nonce; base64 transport encoding is a
  bijection and is elided (record fields hold the underlying symbolic
  bytes).
* Randomness (`os.urandom`, `AESGCM.generate_key`, OAEP seeding, RSA key
  generation) is modelled by an explicit counter threaded through every
  call; each draw returns the counter and advances it, idealising the
  collision-freeness of fresh random draws.
* The filesystem owned by the store (`~/.vibesafe`) is a record of file
  contents; a write-temporary-then-rename sequence is modelled with an
  explicit temporary slot and an injected-failure flag.
* Plaintexts are `String` (utf-8 encode/decode is the identity on the
  valid unicode strings `String` represents).
* The custody mode modelled is the plaintext private-key file: the
  platform passkey managers are unavailable (`passkey_manager = None`,
  `passkey_enabled = False`), which is the default on platforms without
  keychain or FIDO2 support.
-/

/-! ## Symbolic cryptography (encryption.py) -/

/-- The RSA-OAEP wrapping of an AES key, `encryption.py` lines 49-56.
`rsa_pub` is the id of the public key used for the wrap, `aes_key` the
wrapped symmetric key, `oaep_seed` the fresh randomness OAEP draws. -/
structure WrappedKey where
  rsa_pub : Nat
  aes_key : Nat
  oaep_seed : Nat
deriving DecidableEq, Repr

/-- An AES-GCM ciphertext, `encryption.py` line 46: records the key and
nonce it authenticates and the protected plaintext. -/
structure AeadBox where
  aead_key : Nat
  aead_nonce : Nat
  body : String
deriving DecidableEq, Repr

/-- The encrypted-secret record returned by
`EncryptionManager.encrypt_secret` (`encryption.py` lines 59-63):
`{enc_key, nonce, ciphertext}`, each field holding the symbolic bytes
that the source base64-encodes for transport. -/
structure EncryptedSecret where
  enc_key : WrappedKey
  nonce : Nat
  ciphertext : AeadBox
deriving DecidableEq, Repr

/-- Decryption failure kinds surfaced by `decrypt_secret`: OAEP unwrap
failure (wrong private key) and AEAD tag failure (wrong key or nonce,
i.e. tampered data). -/
inductive CryptoErr where
  | oaepFailure
  | aeadFailure
deriving DecidableEq, Repr

namespace EncryptionManager

/-- `EncryptionManager.generate_key_pair` (`encryption.py` lines 18-26):
draws a fresh key pair; returns `(private_key, public_key)` in source
order, both carrying the freshly drawn id. -/
def generate_key_pair (rng : Nat) : (Nat × Nat) × Nat :=
  ((rng, rng), rng + 1)

/-- `EncryptionManager.encrypt_secret` (`encryption.py` lines 28-63).
Draw order follows the source: the AES key (`AESGCM.generate_key`), then
the nonce (`os.urandom(12)`), then the OAEP seed consumed inside
`public_key.encrypt`.  Returns the record and the advanced randomness
counter. -/
def encrypt_secret (plaintext : String) (public_key : Nat) (rng : Nat) :
    EncryptedSecret × Nat :=
  let aes_key := rng
  let nonce := rng + 1
  let ciphertext : AeadBox := ⟨aes_key, nonce, plaintext⟩
  let encrypted_key : WrappedKey := ⟨public_key, aes_key, rng + 2⟩
  (⟨encrypted_key, nonce, ciphertext⟩, rng + 3)

/-- `EncryptionManager.decrypt_secret` (`encryption.py` lines 65-89):
unwrap the AES key with the private key (OAEP fails unless the wrap used
the matching public key), then AEAD-decrypt (fails unless the box
authenticates under that key and the stored nonce). -/
def decrypt_secret (encrypted_data : EncryptedSecret) (private_key : Nat) :
    Except CryptoErr String :=
  if encrypted_data.enc_key.rsa_pub ≠ private_key then
    .error .oaepFailure
  else
    let aes_key := encrypted_data.enc_key.aes_key
    if encrypted_data.ciphertext.aead_key = aes_key ∧
        encrypted_data.ciphertext.aead_nonce = encrypted_data.nonce then
      .ok encrypted_data.ciphertext.body
    else
      .error .aeadFailure

/-- Whether a record decrypts successfully under a given private key. -/
def decryptOk (encrypted_data : EncryptedSecret) (private_key : Nat) : Bool :=
  match decrypt_secret encrypted_data private_key with
  | .ok _ => true
  | .error _ => false

theorem encrypt_then_decrypt (plaintext : String) (k rng : Nat) :
    decrypt_secret (encrypt_secret plaintext k rng).1 k = .ok plaintext := by
  simp [encrypt_secret, decrypt_secret]

end EncryptionManager

/-- C1: round trip.  For every plaintext string and every generated key
pair `(priv, pub)`, decrypting the result of encrypting under `pub` with
`priv` returns the plaintext:
`decrypt_secret (encrypt_secret s pub) priv = ok s`. -/
theorem C1_encrypt_decrypt_roundtrip (s : String) (rng krng : Nat) :
    EncryptionManager.decrypt_secret
      (EncryptionManager.encrypt_secret s
        (EncryptionManager.generate_key_pair krng).1.2 rng).1
      (EncryptionManager.generate_key_pair krng).1.1 = .ok s := by
  simp [EncryptionManager.generate_key_pair,
    EncryptionManager.encrypt_secret, EncryptionManager.decrypt_secret]

/-- C6: non-determinism.  Two successive calls of `encrypt_secret` with
identical plaintext and public key produce records whose nonce fields
differ, whose wrapped-key fields differ and whose ciphertext fields
differ, and both records decrypt to the plaintext under the matching
private key. -/
theorem C6_encryption_nondeterministic (s : String) (k rng : Nat) :
    (EncryptionManager.encrypt_secret s k rng).1.nonce ≠
      (EncryptionManager.encrypt_secret s k
        (EncryptionManager.encrypt_secret s k rng).2).1.nonce ∧
    (EncryptionManager.encrypt_secret s k rng).1.enc_key ≠
      (EncryptionManager.encrypt_secret s k
        (EncryptionManager.encrypt_secret s k rng).2).1.enc_key ∧
    (EncryptionManager.encrypt_secret s k rng).1.ciphertext ≠
      (EncryptionManager.encrypt_secret s k
        (EncryptionManager.encrypt_secret s k rng).2).1.ciphertext ∧
    EncryptionManager.decrypt_secret
      (EncryptionManager.encrypt_secret s k rng).1 k = .ok s ∧
    EncryptionManager.decrypt_secret
      (EncryptionManager.encrypt_secret s k
        (EncryptionManager.encrypt_secret s k rng).2).1 k = .ok s := by
  refine ⟨?_, ?_, ?_, ?_, ?_⟩ <;>
    simp [EncryptionManager.encrypt_secret, EncryptionManager.decrypt_secret,
      WrappedKey.mk.injEq, AeadBox.mk.injEq]

/-! ## Store data model and filesystem (storage.py, services/storage_service.py) -/

/-- The secret store mapping: a JSON object mapping a secret name to one
encrypted record.  JSON objects have unique keys; the association list is
the insertion-ordered view Python dicts expose. -/
abbrev Store := List (String × EncryptedSecret)

/-- Python dict lookup `d[name]` / membership `name in d`. -/
def dictLookup {β : Type} : List (String × β) → String → Option β
  | [], _ => none
  | (k, v) :: rest, n => if k = n then some v else dictLookup rest n

/-- Python dict update `d[name] = v`: replaces the binding in place when
the key is present, otherwise appends it. -/
def dictInsert {β : Type} : List (String × β) → String → β → List (String × β)
  | [], n, v => [(n, v)]
  | (k, w) :: rest, n, v =>
    if k = n then (n, v) :: rest else (k, w) :: dictInsert rest n v

/-- Python dict deletion `del d[name]`: removes the binding of `name`. -/
def dictErase {β : Type} : List (String × β) → String → List (String × β)
  | [], _ => []
  | (k, v) :: rest, n => if k = n then rest else (k, v) :: dictErase rest n

/-- What the bytes of the secrets file parse to: a JSON object of records
(`validObj`), JSON that is not an object such as a list (`validNonObj`),
or bytes that do not parse as JSON at all (`malformed`). -/
inductive FileData where
  | validObj (secrets : Store)
  | validNonObj
  | malformed
deriving DecidableEq, Repr

/-- Storage-layer failure kinds (`StorageError` sites). -/
inductive StorageErr where
  | loadFailed
  | invalidStructure
  | saveFailed
  | privKeyNotFound
  | pubKeyNotFound
deriving DecidableEq, Repr

/-- The part of the filesystem owned by the store directory
(`~/.vibesafe`): the two key files, the secrets file, the single
temporary-artifact slot used by atomic writes, and the `key_backup`
directory as a list of `(file name, PEM content)` entries.  `none` means
the file does not exist; key-file contents are the symbolic key ids the
PEM bytes encode. -/
structure FS where
  privKeyFile : Option Nat
  pubKeyFile : Option Nat
  secretsFile : Option FileData
  tempFile : Option Store
  backups : List (String × Nat)
deriving DecidableEq, Repr

namespace StorageManager

/-- `StorageManager.key_exists` (`storage.py` lines 38-42): public key
file exists and (private key file exists or passkey protection is
enabled).  Passkey protection is disabled in the modelled custody mode. -/
def key_exists (fs : FS) : Bool :=
  fs.pubKeyFile.isSome && fs.privKeyFile.isSome

/-- `StorageManager.private_key_file_exists` (`storage.py` lines 44-46). -/
def private_key_file_exists (fs : FS) : Bool :=
  fs.privKeyFile.isSome

/-- `StorageManager.load_secrets` (`storage.py` lines 158-171): empty
mapping when the file does not exist; `StorageError` when the contents do
not parse; when the contents parse but the `isinstance(data, dict)` check
fails, control falls through to the final `return {}`. -/
def load_secrets (fs : FS) : Except StorageErr Store :=
  match fs.secretsFile with
  | none => .ok []
  | some (.validObj secrets) => .ok secrets
  | some .validNonObj => .ok []
  | some .malformed => .error .loadFailed

/-- `StorageManager.save_secrets` (`storage.py` lines 173-194), which is
also the effect of `StorageService.atomic_write` / `save_json_data`
(`services/storage_service.py` lines 52-102): create a temporary file in
the store directory, write the full contents to it, then atomically
rename it over the live secrets file; on a failure injected during the
write (before the rename) the temporary file is unlinked, the live file
is untouched and `StorageError` is raised.  Returns the filesystem after
the call together with the raised error, if any. -/
def save_secrets (fs : FS) (secrets : Store) (failDuringWrite : Bool) :
    FS × Option StorageErr :=
  let fs1 := { fs with tempFile := some [] }
  if failDuringWrite then
    ({ fs1 with tempFile := none }, some .saveFailed)
  else
    let fs2 := { fs1 with tempFile := some secrets }
    ({ fs2 with secretsFile := some (.validObj secrets), tempFile := none },
      none)

/-- `StorageManager.load_private_key` (`storage.py` lines 129-139),
plaintext custody mode: `StorageError` when the file is missing. -/
def load_private_key (fs : FS) : Except StorageErr Nat :=
  match fs.privKeyFile with
  | none => .error .privKeyNotFound
  | some k => .ok k

/-- `StorageManager.load_public_key` (`storage.py` lines 141-147). -/
def load_public_key (fs : FS) : Except StorageErr Nat :=
  match fs.pubKeyFile with
  | none => .error .pubKeyNotFound
  | some k => .ok k

/-- `StorageManager.save_keys` (`storage.py` lines 83-111), fault-free
path: atomically replace the private key file, then the public key
file. -/
def save_keys (fs : FS) (private_key public_key : Nat) : FS :=
  { fs with privKeyFile := some private_key,
            pubKeyFile := some public_key,
            tempFile := none }

end StorageManager

namespace StorageService

/-- `StorageService.load_json_data` (`services/storage_service.py` lines
89-102): empty mapping when the file does not exist; `StorageError` both
when the contents do not parse and when they parse to something other
than an object. -/
def load_json_data (file : Option FileData) : Except StorageErr Store :=
  match file with
  | none => .ok []
  | some (.validObj secrets) => .ok secrets
  | some .validNonObj => .error .invalidStructure
  | some .malformed => .error .loadFailed

/-- `StorageService.load_secrets` (`services/storage_service.py` lines
126-128). -/
def load_secrets (fs : FS) : Except StorageErr Store :=
  load_json_data fs.secretsFile

/-- `StorageService.save_secrets` (`services/storage_service.py` lines
119-124): delegates to `save_json_data`, whose atomic-write effect is the
same as `StorageManager.save_secrets`. -/
def save_secrets (fs : FS) (secrets : Store) (failDuringWrite : Bool) :
    FS × Option StorageErr :=
  StorageManager.save_secrets fs secrets failDuringWrite

end StorageService

/-- C4: the store save is all-or-nothing.  For every mapping and every
prior filesystem state: on the fault-free path the full contents are
written through the temporary file and renamed over the live store file;
when a failure is injected during the write, before the rename, the
temporary file is removed, `StorageError` is raised, and the whole prior
filesystem — in particular the live store file, byte for byte — is left
unchanged. -/
theorem C4_save_secrets_atomic (fs : FS) (secrets : Store) :
    ((StorageManager.save_secrets fs secrets true).1 =
        { fs with tempFile := none } ∧
      (StorageManager.save_secrets fs secrets true).1.secretsFile =
        fs.secretsFile ∧
      (StorageManager.save_secrets fs secrets true).2 =
        some .saveFailed) ∧
    ((StorageManager.save_secrets fs secrets false).1 =
        { fs with secretsFile := some (.validObj secrets),
                  tempFile := none } ∧
      (StorageManager.save_secrets fs secrets false).2 = none) := by
  refine ⟨⟨?_, ?_, ?_⟩, ?_, ?_⟩ <;> simp [StorageManager.save_secrets]

/-- A concrete store state whose secrets file exists but holds valid JSON
that is not an object (for example a JSON list). -/
def fsNonObj : FS := ⟨none, none, some .validNonObj, none, []⟩

/-- C5, counterexample: the claim says `load()` fails with `StorageError`
whenever the backing file exists but its contents are not a name-to-record
object; but `StorageManager.load_secrets` on an existing file holding
valid JSON that is not an object returns the empty mapping instead of
failing. -/
theorem C5_nonobject_load_counterexample :
    fsNonObj.secretsFile.isSome = true ∧
    StorageManager.load_secrets fsNonObj = .ok [] := by
  constructor <;> rfl

/-- C5, amended: `load()` returns an empty mapping when no backing
secrets file exists, and fails with `StorageError` when the backing file
exists but its contents do not parse; when the contents parse as JSON but
are not an object, the service-layer `StorageService.load_json_data`
fails with `StorageError` while `StorageManager.load_secrets` returns the
empty mapping instead of failing. -/
theorem C5_load_error_amended (fs : FS) (s : Store) :
    (StorageManager.load_secrets { fs with secretsFile := none } = .ok [] ∧
      StorageService.load_json_data none = .ok []) ∧
    (StorageManager.load_secrets { fs with secretsFile := some .malformed } =
        .error .loadFailed ∧
      StorageService.load_json_data (some .malformed) = .error .loadFailed) ∧
    (StorageManager.load_secrets { fs with secretsFile := some .validNonObj } =
        .ok [] ∧
      StorageService.load_json_data (some .validNonObj) =
        .error .invalidStructure) ∧
    (StorageManager.load_secrets { fs with secretsFile := some (.validObj s) } =
        .ok s ∧
      StorageService.load_json_data (some (.validObj s)) = .ok s) := by
  refine ⟨⟨?_, ?_⟩, ⟨?_, ?_⟩, ⟨?_, ?_⟩, ?_, ?_⟩ <;>
    simp [StorageManager.load_secrets, StorageService.load_json_data]

/-! ## Secret-name validation (vibesafe.py, services/secret_service.py) -/

/-- Membership in the character class `[a-zA-Z0-9_-]` of the validation
pattern. -/
def isNameChar (c : Char) : Bool :=
  ('a' ≤ c && c ≤ 'z') || ('A' ≤ c && c ≤ 'Z') || ('0' ≤ c && c ≤ '9') ||
    c = '_' || c = '-'

/-- Semantics of the Python call `re.match(r'^[a-zA-Z0-9_-]+$', s)`
(without `re.MULTILINE`): `+` consumes one or more class characters from
the start of the string, and `$` then matches either at the end of the
string or just before a single trailing newline.  Since a newline is not
in the class, the call succeeds exactly when the string is a non-empty
run of class characters, optionally followed by one final newline. -/
def re_match_name (cs : List Char) : Bool :=
  (!cs.isEmpty && cs.all isNameChar) ||
    (match cs.getLast? with
     | some c =>
       c = '\n' && (!cs.dropLast.isEmpty && cs.dropLast.all isNameChar)
     | none => false)

namespace VibeSafe

/-- `VibeSafe._validate_secret_name` (`vibesafe.py` lines 772-779):
reject the empty string and names longer than 100 characters, then test
the pattern `^[a-zA-Z0-9_-]+$` with `re.match`. -/
def validate_secret_name (name : String) : Bool :=
  if name.length = 0 || name.length > 100 then false
  else re_match_name name.data

end VibeSafe

namespace SecretService

/-- `SecretService.validate_secret_name`
(`services/secret_service.py` lines 23-28): same length guard and
`re.match` call as `VibeSafe._validate_secret_name`. -/
def validate_secret_name (name : String) : Bool :=
  if name.length = 0 || name.length > 100 then false
  else re_match_name name.data

end SecretService

/-- Modelled from the spec: the claimed acceptance condition, the pattern
`^[A-Za-z0-9_-]{1,100}$` read as a full anchored match — between 1 and
100 characters, every one of them a letter, digit, underscore or
hyphen. -/
def spec_name_ok (name : String) : Bool :=
  decide (1 ≤ name.length) && decide (name.length ≤ 100) &&
    name.data.all isNameChar

/-- C7: the validation code diverges from the claimed regex on the input
`"a\n"`.  Both implementations accept it, because the `$` anchor of a
Python `re.match` also matches just before one trailing newline, while
the claim requires rejection of any name containing a character outside
letters, digits, underscore and hyphen. -/
theorem C7_name_validation_newline_bug :
    VibeSafe.validate_secret_name "a\n" = true ∧
    SecretService.validate_secret_name "a\n" = true ∧
    spec_name_ok "a\n" = false := by
  refine ⟨?_, ?_, ?_⟩ <;> decide

/-! ## VibeSafe operation state and errors (vibesafe.py, services/secret_service.py) -/

/-- The state an operation acts on: the store directory plus the
randomness counter feeding the cryptographic draws. -/
structure VSState where
  fs : FS
  rng : Nat
deriving DecidableEq, Repr

/-- The typed errors the operations surface (`VibeSafeError` sites and
the storage errors that propagate through them). -/
inductive VSErr where
  | noKeyPair
  | invalidName
  | cliArgBlocked
  | emptyValue
  | secretExists
  | secretNotFound
  | noSecretsToRotate
  | storage (e : StorageErr)
  | decryptFailed (name : String)
deriving DecidableEq, Repr

namespace VibeSafe

/-- `VibeSafe.add_secret` (`vibesafe.py` lines 135-176).  `value` is the
optional value argument; `prompt_input` models what `getpass` returns
when no value was supplied.  Checks in source order: key pair present,
name valid, the security block on values passed as command arguments in
interactive mode, duplicate check, then encrypt and persist.  There is no
empty-value check on this path. -/
def add_secret (st : VSState) (interactive : Bool) (name : String)
    (value : Option String) (prompt_input : String) (overwrite : Bool) :
    VSState × Option VSErr :=
  if ¬ StorageManager.key_exists st.fs then (st, some .noKeyPair)
  else if ¬ validate_secret_name name then (st, some .invalidName)
  else if value.isSome && interactive then (st, some .cliArgBlocked)
  else
    let v := value.getD prompt_input
    match StorageManager.load_secrets st.fs with
    | .error e => (st, some (.storage e))
    | .ok secrets =>
      if (dictLookup secrets name).isSome && ¬ overwrite then
        (st, some .secretExists)
      else
        match StorageManager.load_public_key st.fs with
        | .error e => (st, some (.storage e))
        | .ok public_key =>
          let (encrypted_data, rng1) :=
            EncryptionManager.encrypt_secret v public_key st.rng
          let secrets1 := dictInsert secrets name encrypted_data
          (⟨(StorageManager.save_secrets st.fs secrets1 false).1, rng1⟩, none)

/-- `VibeSafe.remove_secret` (`vibesafe.py` lines 613-626): load the
store, fail with `NotFound` when the name is absent, otherwise delete the
binding and persist. -/
def remove_secret (st : VSState) (name : String) : VSState × Option VSErr :=
  match StorageManager.load_secrets st.fs with
  | .error e => (st, some (.storage e))
  | .ok secrets =>
    if (dictLookup secrets name).isNone then (st, some .secretNotFound)
    else
      (⟨(StorageManager.save_secrets st.fs (dictErase secrets name) false).1,
        st.rng⟩, none)

end VibeSafe

namespace SecretService

/-- `SecretService.add_secret` (`services/secret_service.py` lines
30-52): validate the name, reject an empty value, load, duplicate check,
encrypt and persist.  The public key is a parameter on this path. -/
def add_secret (st : VSState) (name value : String) (public_key : Nat)
    (overwrite : Bool) : VSState × Option VSErr :=
  if ¬ validate_secret_name name then (st, some .invalidName)
  else if value = "" then (st, some .emptyValue)
  else
    match StorageService.load_secrets st.fs with
    | .error e => (st, some (.storage e))
    | .ok secrets =>
      if (dictLookup secrets name).isSome && ¬ overwrite then
        (st, some .secretExists)
      else
        let (encrypted_data, rng1) :=
          EncryptionManager.encrypt_secret value public_key st.rng
        let secrets1 := dictInsert secrets name encrypted_data
        (⟨(StorageService.save_secrets st.fs secrets1 false).1, rng1⟩, none)

/-- `SecretService.delete_secret` (`services/secret_service.py` lines
64-72): load the store, fail when the name is absent, otherwise delete
the binding and persist. -/
def delete_secret (st : VSState) (name : String) : VSState × Option VSErr :=
  match StorageService.load_secrets st.fs with
  | .error e => (st, some (.storage e))
  | .ok secrets =>
    if (dictLookup secrets name).isNone then (st, some .secretNotFound)
    else
      (⟨(StorageService.save_secrets st.fs (dictErase secrets name) false).1,
        st.rng⟩, none)

end SecretService

/-! ## Association-list lemmas for the store mapping -/

theorem dictLookup_eq_none_of_not_mem {β : Type} (s : List (String × β))
    (name : String) (h : name ∉ s.map Prod.fst) :
    dictLookup s name = none := by
  induction s with
  | nil => rfl
  | cons p rest ih =>
    obtain ⟨k, v⟩ := p
    simp only [List.map_cons, List.mem_cons, not_or] at h
    simp only [dictLookup, if_neg (Ne.symm h.1), ih h.2]

theorem dictLookup_dictErase_ne {β : Type} (s : List (String × β))
    (name m : String) (h : m ≠ name) :
    dictLookup (dictErase s name) m = dictLookup s m := by
  induction s with
  | nil => rfl
  | cons p rest ih =>
    obtain ⟨k, v⟩ := p
    by_cases hk : k = name
    · have hkm : k ≠ m := fun hkm => h (hkm.symm.trans hk)
      simp only [dictErase, if_pos hk, dictLookup, if_neg hkm]
    · simp only [dictErase, if_neg hk, dictLookup]
      by_cases hm : k = m
      · simp only [if_pos hm]
      · simp only [if_neg hm, ih]

theorem dictLookup_dictErase_self {β : Type} (s : List (String × β))
    (name : String) (hnd : (s.map Prod.fst).Nodup) :
    dictLookup (dictErase s name) name = none := by
  induction s with
  | nil => rfl
  | cons p rest ih =>
    obtain ⟨k, v⟩ := p
    simp only [List.map_cons, List.nodup_cons] at hnd
    by_cases hk : k = name
    · simp only [dictErase, if_pos hk]
      exact dictLookup_eq_none_of_not_mem rest name (hk ▸ hnd.1)
    · simp only [dictErase, if_neg hk, dictLookup, if_neg hk, ih hnd.2]

/-! ## Key rotation (vibesafe.py lines 304-372) -/

/-- The writes rotation performs on the store directory, in order: the
timestamped backup copies of the previous key files
(`shutil.copy2` into `key_backup`, `vibesafe.py` lines 342-357), the
atomic replacement of the live key pair (`save_keys`, line 360), and the
atomic replacement of the live secret store (`save_secrets`, line
361). -/
inductive FsEvent where
  | backupPriv (ts : String) (pem : Nat)
  | backupPub (ts : String) (pem : Nat)
  | saveKeys (private_key public_key : Nat)
  | saveSecrets (secrets : Store)
deriving DecidableEq, Repr

/-- Effect of one rotation write on the store directory.  Backup copies
add an entry `private_<ts>.pem` / `public_<ts>.pem` holding the copied
PEM content; the save events are the fault-free atomic writes of
`storage.py`. -/
def applyEvent (fs : FS) : FsEvent → FS
  | .backupPriv ts pem =>
    { fs with backups := ("private_" ++ ts ++ ".pem", pem) :: fs.backups }
  | .backupPub ts pem =>
    { fs with backups := ("public_" ++ ts ++ ".pem", pem) :: fs.backups }
  | .saveKeys private_key public_key =>
    StorageManager.save_keys fs private_key public_key
  | .saveSecrets secrets =>
    (StorageManager.save_secrets fs secrets false).1

/-- Sequential application of rotation writes. -/
def applyEvents (fs : FS) (events : List FsEvent) : FS :=
  events.foldl applyEvent fs

/-- The decryption loop of rotation (`vibesafe.py` lines 322-329):
decrypt every record with the old key in store order, raising on the
first record that fails (the error carries that secret name). -/
def decryptAllSecrets (secrets : Store) (old_private_key : Nat) :
    Except String (List (String × String)) :=
  match secrets with
  | [] => .ok []
  | (name, encrypted_data) :: rest =>
    match EncryptionManager.decrypt_secret encrypted_data old_private_key with
    | .error _ => .error name
    | .ok plaintext =>
      match decryptAllSecrets rest old_private_key with
      | .error n => .error n
      | .ok tl => .ok ((name, plaintext) :: tl)

/-- The re-encryption loop of rotation (`vibesafe.py` lines 336-340):
encrypt every decrypted value under the new public key in order,
threading the randomness counter. -/
def encryptAllSecrets : List (String × String) → Nat → Nat → Store × Nat
  | [], _, rng => ([], rng)
  | (name, plaintext) :: rest, new_public_key, rng =>
    let enc := EncryptionManager.encrypt_secret plaintext new_public_key rng
    let tl := encryptAllSecrets rest new_public_key enc.2
    ((name, enc.1) :: tl.1, tl.2)

/-- The outcome of a rotation attempt: the state after the call, the
ordered list of writes it performed, and the error it raised, if any.
The final filesystem is by construction the initial one with the
performed writes applied, so an empty write list means the call had no
side effects. -/
structure RotateOut where
  state : VSState
  events : List FsEvent
  error : Option VSErr
deriving DecidableEq, Repr

namespace VibeSafe

/-- `VibeSafe.rotate_keys` (`vibesafe.py` lines 304-372), custody mode
plaintext file (no passkey manager).  Control flow in source order:
require an existing key pair; load the secrets and reject an empty set;
load the current private key; decrypt every record, aborting on the
first failure; generate a new key pair; re-encrypt everything; back up
the old private key file (when it exists) and the old public key file
into the timestamped backup location; atomically replace the live key
pair and then the live secret store. -/
def rotate_keys (st : VSState) (ts : String) : RotateOut :=
  if ¬ StorageManager.key_exists st.fs then ⟨st, [], some .noKeyPair⟩
  else
    match StorageManager.load_secrets st.fs with
    | .error e => ⟨st, [], some (.storage e)⟩
    | .ok secrets =>
      if secrets.isEmpty then ⟨st, [], some .noSecretsToRotate⟩
      else
        match StorageManager.load_private_key st.fs with
        | .error e => ⟨st, [], some (.storage e)⟩
        | .ok old_private_key =>
          match decryptAllSecrets secrets old_private_key with
          | .error name => ⟨st, [], some (.decryptFailed name)⟩
          | .ok decrypted_secrets =>
            let kp := EncryptionManager.generate_key_pair st.rng
            let new_private_key := kp.1.1
            let new_public_key := kp.1.2
            let encAll :=
              encryptAllSecrets decrypted_secrets new_public_key kp.2
            let events :=
              (if StorageManager.private_key_file_exists st.fs then
                [FsEvent.backupPriv ts (st.fs.privKeyFile.getD 0)]
              else []) ++
              [FsEvent.backupPub ts (st.fs.pubKeyFile.getD 0),
               FsEvent.saveKeys new_private_key new_public_key,
               FsEvent.saveSecrets encAll.1]
            ⟨⟨applyEvents st.fs events, encAll.2⟩, events, none⟩

end VibeSafe

/-! ## Rotation lemmas -/

theorem decryptAllSecrets_error_of_failure (secrets : Store) (k : Nat)
    (h : ∃ p ∈ secrets, EncryptionManager.decryptOk p.2 k = false) :
    ∃ n, decryptAllSecrets secrets k = .error n := by
  induction secrets with
  | nil =>
    obtain ⟨p, hp, _⟩ := h
    exact absurd hp (List.not_mem_nil p)
  | cons q rest ih =>
    obtain ⟨k1, e1⟩ := q
    cases hd : EncryptionManager.decrypt_secret e1 k with
    | error err => exact ⟨k1, by simp [decryptAllSecrets, hd]⟩
    | ok pt =>
      obtain ⟨p, hp, hpf⟩ := h
      rcases List.mem_cons.mp hp with heq | hmem
      · subst heq
        simp [EncryptionManager.decryptOk, hd] at hpf
      · obtain ⟨n, hn⟩ := ih ⟨p, hmem, hpf⟩
        exact ⟨n, by simp [decryptAllSecrets, hd, hn]⟩

theorem decryptAllSecrets_ok_of_all (secrets : Store) (k : Nat)
    (h : ∀ p ∈ secrets, EncryptionManager.decryptOk p.2 k = true) :
    ∃ ps, decryptAllSecrets secrets k = .ok ps := by
  induction secrets with
  | nil => exact ⟨[], rfl⟩
  | cons q rest ih =>
    obtain ⟨k1, e1⟩ := q
    cases hd : EncryptionManager.decrypt_secret e1 k with
    | error err =>
      have hq := h (k1, e1) (List.mem_cons_self _ _)
      simp [EncryptionManager.decryptOk, hd] at hq
    | ok pt =>
      obtain ⟨ps, hps⟩ := ih (fun p hp => h p (List.mem_cons_of_mem _ hp))
      exact ⟨(k1, pt) :: ps, by simp [decryptAllSecrets, hd, hps]⟩

/-- Decrypt-all then re-encrypt-all preserves the mapping: every name
bound in the old store is bound in the re-encrypted store to a record
that decrypts under the new key to the plaintext the old record held. -/
theorem dictLookup_encryptAll_of_decryptAll (secrets : Store) (k : Nat)
    (ps : List (String × String)) (pub r : Nat)
    (hd : decryptAllSecrets secrets k = .ok ps) :
    ∀ (n : String) (e : EncryptedSecret) (pt : String),
      dictLookup secrets n = some e →
      EncryptionManager.decrypt_secret e k = .ok pt →
      ∃ e2, dictLookup (encryptAllSecrets ps pub r).1 n = some e2 ∧
        EncryptionManager.decrypt_secret e2 pub = .ok pt := by
  induction secrets generalizing ps r with
  | nil =>
    intro n e pt hl
    simp [dictLookup] at hl
  | cons q rest ih =>
    obtain ⟨k1, e1⟩ := q
    intro n e pt hl hdec
    cases hd1 : EncryptionManager.decrypt_secret e1 k with
    | error err => simp [decryptAllSecrets, hd1] at hd
    | ok pt1 =>
      cases hd2 : decryptAllSecrets rest k with
      | error m => simp [decryptAllSecrets, hd1, hd2] at hd
      | ok tl =>
        have hps : ps = (k1, pt1) :: tl := by
          simp [decryptAllSecrets, hd1, hd2] at hd
          exact hd.symm
        subst hps
        by_cases hn : k1 = n
        · subst hn
          have hl2 : e1 = e := by simpa [dictLookup] using hl
          subst hl2
          have hpt : pt1 = pt := by
            rw [hd1] at hdec
            exact (Except.ok.injEq _ _).mp hdec
          subst hpt
          refine ⟨(EncryptionManager.encrypt_secret pt1 pub r).1, ?_, ?_⟩
          · simp [encryptAllSecrets, dictLookup]
          · exact EncryptionManager.encrypt_then_decrypt pt1 pub r
        · simp only [dictLookup, if_neg hn] at hl
          obtain ⟨e2, h1, h2⟩ :=
            ih tl (EncryptionManager.encrypt_secret pt1 pub r).2 hd2 n e pt hl
              hdec
          exact ⟨e2, by simp [encryptAllSecrets, dictLookup, if_neg hn, h1],
            h2⟩

/-- C2: rotation is all-or-nothing on decrypt failure.  When a key pair
is present and at least one stored record fails to decrypt under the
current private key, `rotate_keys` aborts with the decrypt-failure error,
performs no writes, and leaves the whole state — key files and persisted
secret store included — exactly what it was. -/
theorem C2_rotation_aborts_on_decrypt_failure (st : VSState) (ts : String)
    (secrets : Store) (old_private_key : Nat)
    (hk : StorageManager.key_exists st.fs = true)
    (hpriv : st.fs.privKeyFile = some old_private_key)
    (hload : StorageManager.load_secrets st.fs = .ok secrets)
    (hbad : ∃ p ∈ secrets,
      EncryptionManager.decryptOk p.2 old_private_key = false) :
    ∃ n, VibeSafe.rotate_keys st ts = ⟨st, [], some (.decryptFailed n)⟩ := by
  obtain ⟨n, hn⟩ :=
    decryptAllSecrets_error_of_failure secrets old_private_key hbad
  have hne : secrets.isEmpty = false := by
    obtain ⟨p, hp, _⟩ := hbad
    cases secrets with
    | nil => exact absurd hp (List.not_mem_nil p)
    | cons q rest => rfl
  exact ⟨n, by
    simp [VibeSafe.rotate_keys, hk, hload, hne,
      StorageManager.load_private_key, hpriv, hn]⟩

/-- A record encrypted under key id 5; it does not decrypt under the
private key id 7 of the witness state. -/
def c2BadRecord : EncryptedSecret :=
  (EncryptionManager.encrypt_secret "x" 5 0).1

/-- Witness state for C2: key pair 7 on disk, one stored record that was
encrypted under a different key. -/
def c2State : VSState :=
  ⟨⟨some 7, some 7, some (.validObj [("A", c2BadRecord)]), none, []⟩, 50⟩

theorem C2_rotation_aborts_witness :
    ∃ n, VibeSafe.rotate_keys c2State "T" =
      ⟨c2State, [], some (.decryptFailed n)⟩ :=
  C2_rotation_aborts_on_decrypt_failure c2State "T" [("A", c2BadRecord)] 7
    (by decide) rfl rfl (by decide)

/-- C8: rotation requires a non-empty secret set.  With a key pair
present but an empty secret store, `rotate_keys` is rejected with an
error, performs no writes, and modifies neither the key pair nor the
store. -/
theorem C8_rotation_requires_nonempty (st : VSState) (ts : String)
    (hk : StorageManager.key_exists st.fs = true)
    (hload : StorageManager.load_secrets st.fs = .ok []) :
    VibeSafe.rotate_keys st ts = ⟨st, [], some .noSecretsToRotate⟩ := by
  simp [VibeSafe.rotate_keys, hk, hload]

/-- Witness state for C8: key pair 3 on disk, no secrets file. -/
def c8State : VSState := ⟨⟨some 3, some 3, none, none, []⟩, 0⟩

theorem C8_rotation_requires_nonempty_witness :
    VibeSafe.rotate_keys c8State "T" =
      ⟨c8State, [], some .noSecretsToRotate⟩ :=
  C8_rotation_requires_nonempty c8State "T" (by decide) rfl

/-- C3: successful rotation.  On a non-empty store whose every record
decrypts under the current private key, `rotate_keys` succeeds; its
writes are, in order, the backup copies of the previous private and
public key files into the timestamped backup location, then the
replacement of the live key pair by the freshly generated one, then the
replacement of the live secret store; afterwards the live key files hold
the new key pair, the backup location holds the previous key pair
unmodified, and every stored name decrypts under the new private key to
the plaintext it had before. -/
theorem C3_rotation_success (st : VSState) (ts : String) (secrets : Store)
    (old_private_key old_public_key : Nat)
    (hpriv : st.fs.privKeyFile = some old_private_key)
    (hpub : st.fs.pubKeyFile = some old_public_key)
    (hload : StorageManager.load_secrets st.fs = .ok secrets)
    (hne : secrets ≠ [])
    (hall : ∀ p ∈ secrets,
      EncryptionManager.decryptOk p.2 old_private_key = true) :
    ∃ (new_key : Nat) (new_secrets : Store),
      (VibeSafe.rotate_keys st ts).error = none ∧
      (VibeSafe.rotate_keys st ts).events =
        [.backupPriv ts old_private_key, .backupPub ts old_public_key,
         .saveKeys new_key new_key, .saveSecrets new_secrets] ∧
      (VibeSafe.rotate_keys st ts).state.fs.privKeyFile = some new_key ∧
      (VibeSafe.rotate_keys st ts).state.fs.pubKeyFile = some new_key ∧
      (VibeSafe.rotate_keys st ts).state.fs.secretsFile =
        some (.validObj new_secrets) ∧
      ("private_" ++ ts ++ ".pem", old_private_key) ∈
        (VibeSafe.rotate_keys st ts).state.fs.backups ∧
      ("public_" ++ ts ++ ".pem", old_public_key) ∈
        (VibeSafe.rotate_keys st ts).state.fs.backups ∧
      ∀ (n : String) (e : EncryptedSecret) (pt : String),
        dictLookup secrets n = some e →
        EncryptionManager.decrypt_secret e old_private_key = .ok pt →
        ∃ e2, dictLookup new_secrets n = some e2 ∧
          EncryptionManager.decrypt_secret e2 new_key = .ok pt := by
  have hk : StorageManager.key_exists st.fs = true := by
    simp [StorageManager.key_exists, hpriv, hpub]
  have hpf : StorageManager.private_key_file_exists st.fs = true := by
    simp [StorageManager.private_key_file_exists, hpriv]
  obtain ⟨ps, hps⟩ := decryptAllSecrets_ok_of_all secrets old_private_key hall
  have hne2 : secrets.isEmpty = false := by
    cases secrets with
    | nil => exact absurd rfl hne
    | cons q rest => rfl
  refine ⟨st.rng, (encryptAllSecrets ps st.rng (st.rng + 1)).1,
    ?_, ?_, ?_, ?_, ?_, ?_, ?_,
    dictLookup_encryptAll_of_decryptAll secrets old_private_key ps st.rng
      (st.rng + 1) hps⟩ <;>
    simp [VibeSafe.rotate_keys, hk, hload, hne2,
      StorageManager.load_private_key, hpriv, hpub, hps, hpf,
      EncryptionManager.generate_key_pair, applyEvents, applyEvent,
      StorageManager.save_keys, StorageManager.save_secrets]

/-- Witness store for C3: secrets `A` and `B` encrypted under key 0. -/
def c3Secrets : Store :=
  [("A", (EncryptionManager.encrypt_secret "1" 0 100).1),
   ("B", (EncryptionManager.encrypt_secret "2" 0 103).1)]

/-- Witness state for C3: key pair 0 on disk, two decryptable records. -/
def c3State : VSState :=
  ⟨⟨some 0, some 0, some (.validObj c3Secrets), none, []⟩, 200⟩

theorem C3_rotation_success_witness :
    ∃ (new_key : Nat) (new_secrets : Store),
      (VibeSafe.rotate_keys c3State "TS").error = none ∧
      (VibeSafe.rotate_keys c3State "TS").events =
        [.backupPriv "TS" 0, .backupPub "TS" 0,
         .saveKeys new_key new_key, .saveSecrets new_secrets] ∧
      (VibeSafe.rotate_keys c3State "TS").state.fs.privKeyFile =
        some new_key ∧
      (VibeSafe.rotate_keys c3State "TS").state.fs.pubKeyFile =
        some new_key ∧
      (VibeSafe.rotate_keys c3State "TS").state.fs.secretsFile =
        some (.validObj new_secrets) ∧
      ("private_" ++ "TS" ++ ".pem", 0) ∈
        (VibeSafe.rotate_keys c3State "TS").state.fs.backups ∧
      ("public_" ++ "TS" ++ ".pem", 0) ∈
        (VibeSafe.rotate_keys c3State "TS").state.fs.backups ∧
      ∀ (n : String) (e : EncryptedSecret) (pt : String),
        dictLookup c3Secrets n = some e →
        EncryptionManager.decrypt_secret e 0 = .ok pt →
        ∃ e2, dictLookup new_secrets n = some e2 ∧
          EncryptionManager.decrypt_secret e2 new_key = .ok pt :=
  C3_rotation_success c3State "TS" c3Secrets 0 0 rfl rfl rfl (by decide)
    (by decide)

/-- Witness state for C9: key pair 0 on disk, empty secret store. -/
def c9State : VSState :=
  ⟨⟨some 0, some 0, some (.validObj []), none, []⟩, 10⟩

/-- C9, counterexample: the claim says adding a secret whose value is the
empty string fails with a validation error and leaves the persisted
mapping unchanged; but `VibeSafe.add_secret` (the path behind the
programmatic `store_secret` API, non-interactive) has no empty-value
check: it succeeds and persists an encrypted empty string, changing the
mapping. -/
theorem C9_empty_value_counterexample :
    (VibeSafe.add_secret c9State false "A" (some "") "" false).2 = none ∧
    (VibeSafe.add_secret c9State false "A" (some "") ""
        false).1.fs.secretsFile ≠ c9State.fs.secretsFile ∧
    (VibeSafe.add_secret c9State false "A" (some "") ""
        false).1.fs.secretsFile =
      some (.validObj [("A", (EncryptionManager.encrypt_secret "" 0 10).1)]) := by
  refine ⟨?_, ?_, ?_⟩ <;> decide

/-- C9, amended: adding a secret whose value is the empty string through
`SecretService.add_secret` fails with the empty-value validation error
and leaves the state — in particular the persisted secret mapping —
unchanged; the `VibeSafe.add_secret` path performs no empty-value
check. -/
theorem C9_empty_value_amended (st : VSState) (name : String)
    (public_key : Nat) (overwrite : Bool)
    (h : SecretService.validate_secret_name name = true) :
    SecretService.add_secret st name "" public_key overwrite =
      (st, some .emptyValue) := by
  simp [SecretService.add_secret, h]

theorem C9_empty_value_amended_witness :
    SecretService.add_secret c9State "A" "" 0 false =
      (c9State, some .emptyValue) :=
  C9_empty_value_amended c9State "A" 0 false (by decide)

/-- C10: deletion removes exactly one entry.  For every state whose
persisted store is a well-formed object binding `name`, both
`VibeSafe.remove_secret` and `SecretService.delete_secret` succeed and
persist the store with exactly that binding removed: afterwards `name` is
absent, and every other name is bound to the identical encrypted record
it was bound to before. -/
theorem C10_delete_removes_exactly_one (st : VSState) (secrets : Store)
    (name : String) (e : EncryptedSecret)
    (hfile : st.fs.secretsFile = some (.validObj secrets))
    (hnd : (secrets.map Prod.fst).Nodup)
    (hmem : dictLookup secrets name = some e) :
    ((VibeSafe.remove_secret st name).2 = none ∧
      (VibeSafe.remove_secret st name).1.fs.secretsFile =
        some (.validObj (dictErase secrets name)) ∧
      (SecretService.delete_secret st name).2 = none ∧
      (SecretService.delete_secret st name).1.fs.secretsFile =
        some (.validObj (dictErase secrets name))) ∧
    dictLookup (dictErase secrets name) name = none ∧
    ∀ m : String, m ≠ name →
      dictLookup (dictErase secrets name) m = dictLookup secrets m := by
  have hM : StorageManager.load_secrets st.fs = .ok secrets := by
    simp [StorageManager.load_secrets, hfile]
  have hS : StorageService.load_secrets st.fs = .ok secrets := by
    simp [StorageService.load_secrets, StorageService.load_json_data, hfile]
  have hsome : (dictLookup secrets name).isNone = false := by
    simp [hmem]
  refine ⟨⟨?_, ?_, ?_, ?_⟩, dictLookup_dictErase_self secrets name hnd,
    fun m hm => dictLookup_dictErase_ne secrets name m hm⟩ <;>
    simp [VibeSafe.remove_secret, SecretService.delete_secret, hM, hS, hsome,
      StorageManager.save_secrets, StorageService.save_secrets]

/-- Witness store for C10: two distinct bindings. -/
def c10Secrets : Store :=
  [("A", (EncryptionManager.encrypt_secret "1" 0 0).1),
   ("B", (EncryptionManager.encrypt_secret "2" 0 3).1)]

/-- Witness state for C10. -/
def c10State : VSState :=
  ⟨⟨some 0, some 0, some (.validObj c10Secrets), none, []⟩, 20⟩

theorem C10_delete_removes_exactly_one_witness :
    ((VibeSafe.remove_secret c10State "A").2 = none ∧
      (VibeSafe.remove_secret c10State "A").1.fs.secretsFile =
        some (.validObj (dictErase c10Secrets "A")) ∧
      (SecretService.delete_secret c10State "A").2 = none ∧
      (SecretService.delete_secret c10State "A").1.fs.secretsFile =
        some (.validObj (dictErase c10Secrets "A"))) ∧
    dictLookup (dictErase c10Secrets "A") "A" = none ∧
    ∀ m : String, m ≠ "A" →
      dictLookup (dictErase c10Secrets "A") m = dictLookup c10Secrets m :=
  C10_delete_removes_exactly_one c10State c10Secrets "A"
    (EncryptionManager.encrypt_secret "1" 0 0).1 rfl (by decide) (by decide)
